import Mathlib

/-!
Verification of the half-height 4-gray animated logo demo
(`half_height_4gray_animated_logo_demo.ino`).

The sketch drives an ssd1306 OLED in half-height (32-row mux) mode and
double-buffers GDDRAM: each tick it renders into the local framebuffer half
that is not displayed, streams that half out over SPI while zeroing it, and
then issues a display-start-line command selecting the freshly uploaded
GDDRAM half.

The embedding below translates the sketch's functions into pure Lean
functions.  The local framebuffer is modelled at the bit level
(`Buf : Nat → Nat → Bool`, byte index and bit index), with `byteAt`
reassembling the byte value a bus transfer would ship.  SPI traffic is
modelled as explicit lists of bytes, command sequences and data bursts being
kept apart in a small trace type.  The Arduboy2 drawing primitives
(`fillRect`, `drawBitmap`) and the logo bitmap from `ab_logo.c` are not part
of the translated source; they are modelled from the spec's interface
description, with the logo kept as an arbitrary parameter.
-/

/-- Pixel colour constants of the Arduboy2 library: `WHITE = 1`. -/
def WHITE : Nat := 1

/-- Pixel colour constants of the Arduboy2 library: `BLACK = 0`. -/
def BLACK : Nat := 0

/-- The `colors[4][2]` table of the sketch: four logical colours, each with a
value per dither phase (`{WHITE,WHITE}`, `{WHITE,BLACK}`, `{BLACK,WHITE}`,
`{BLACK,BLACK}`). -/
def colors (r c : Nat) : Nat :=
  (([[WHITE, WHITE], [WHITE, BLACK], [BLACK, WHITE], [BLACK, BLACK]].getD r []).getD c 0)

/-- `DEFAULT_FRAME_PERIOD_MS` of the sketch (microseconds, despite the name). -/
def DEFAULT_FRAME_PERIOD_MS : Nat := 7572

/-- `half_buf_sz = 128*64/8/2` from `render`: bytes per framebuffer half. -/
def half_buf_sz : Nat := 128 * 64 / 8 / 2

/-- Modulus of the AVR `unsigned long` (32-bit) arithmetic used by `loop`. -/
def U32 : Nat := 2 ^ 32

/-- The local framebuffer `arduboy.sBuffer`, modelled at bit granularity:
`buf idx k` is bit `k` of byte `idx`.  Byte `idx` holds the 8 vertically
stacked pixels of column `idx % 128` in row-band `idx / 128`. -/
def Buf : Type := Nat → Nat → Bool

/-- Numeric value of one bit. -/
def bitVal (b : Bool) : Nat := if b then 1 else 0

/-- The byte value of buffer byte `i`, as shipped over the bus. -/
def byteAt (buf : Buf) (i : Nat) : Nat :=
  bitVal (buf i 0) + 2 * bitVal (buf i 1) + 4 * bitVal (buf i 2) + 8 * bitVal (buf i 3) +
    16 * bitVal (buf i 4) + 32 * bitVal (buf i 5) + 64 * bitVal (buf i 6) +
    128 * bitVal (buf i 7)

/-- Pixel `(px, py)` of the framebuffer: bit `py % 8` of byte
`(py / 8) * 128 + px`. -/
def getPixel (buf : Buf) (px py : Nat) : Bool :=
  buf (py / 8 * 128 + px) (py % 8)

/-- Does pixel `(px, py)` lie in the rectangle at `(x, y)` of size `w × h`? -/
def inRectB (px py x y w h : Nat) : Bool :=
  decide (x ≤ px) && decide (px < x + w) && decide (y ≤ py) && decide (py < y + h)

/-- Modelled from the spec: the Arduboy2 drawing library is out of scope of
the repository's sources; the spec describes `fillRect` as "a rectangle-fill
primitive parameterized by (x, y, width, height, color)" on the flat pixel
buffer.  Every pixel inside the rectangle is set to the binary colour
(`c ≠ 0` = white), all other bits are untouched. -/
def fillRect (buf : Buf) (x y w h c : Nat) : Buf :=
  fun idx k =>
    if k < 8 && inRectB (idx % 128) (idx / 128 * 8 + k) x y w h then decide (c ≠ 0)
    else buf idx k

/-- Modelled from the spec: the Arduboy2 `drawBitmap` is out of scope of the
repository's sources; the spec describes it as "a bitmap-blit primitive
parameterized by (x, y, bitmap-data, width, height)".  Drawing with the
default `WHITE` colour sets the pixels whose bitmap bit is set and leaves
every other pixel untouched.  The bitmap data is an abstract predicate. -/
def drawBitmap (buf : Buf) (x y : Nat) (bitmap : Nat → Nat → Bool) (w h : Nat) : Buf :=
  fun idx k =>
    if k < 8 && inRectB (idx % 128) (idx / 128 * 8 + k) x y w h
        && bitmap (idx % 128 - x) (idx / 128 * 8 + k - y) then true
    else buf idx k

/-- `test_pattern_rect` of the sketch: three side-by-side `w/3`-wide fills at
`x + i*w/3`, coloured `colors[(c_ofs+i)%3][i_ph]` for `i = 0, 1, 2`
(the global `colors` table is the one always passed in by the sketch). -/
def test_pattern_rect (buf : Buf) (x y w h c_ofs i_ph : Nat) : Buf :=
  fillRect
    (fillRect
      (fillRect buf (x + 0 * w / 3) y (w / 3) h (colors ((c_ofs + 0) % 3) i_ph))
      (x + 1 * w / 3) y (w / 3) h (colors ((c_ofs + 1) % 3) i_ph))
    (x + 2 * w / 3) y (w / 3) h (colors ((c_ofs + 2) % 3) i_ph)

/-- `render_logo` of the sketch: blit the 88×16 `arduboy_logo` at `(20, y_ofs)`.
The logo bitmap (from `ab_logo.c`, not under `src/`) is a parameter. -/
def render_logo (buf : Buf) (logo : Nat → Nat → Bool) (y_ofs : Nat) : Buf :=
  drawBitmap buf 20 y_ofs logo 88 16

/-- `render_moving_bar` of the sketch: three stacked 96×2 test-pattern strips
at `(16, y_ofs)`, `(16, y_ofs+2)`, `(16, y_ofs+4)` with colour offsets 0, 1, 2. -/
def render_moving_bar (buf : Buf) (y_ofs i_ph : Nat) : Buf :=
  test_pattern_rect
    (test_pattern_rect (test_pattern_rect buf 16 y_ofs 96 2 0 i_ph)
      16 (y_ofs + 2) 96 2 1 i_ph)
    16 (y_ofs + 4) 96 2 2 i_ph

/-- `top_line` local of `render`: `i_ph ? 0 : 32`. -/
def top_line (i_ph : Nat) : Nat := if i_ph ≠ 0 then 0 else 32

/-- The `front` local of `render`: `rt > 32-6` where `rt = (frame_idx/9) % ((32-6)*2)`. -/
def front (frame_idx : Nat) : Bool :=
  decide (frame_idx / 9 % ((32 - 6) * 2) > 32 - 6)

/-- The `rect_rel_top` local of `render`: the triangle-wave bar position,
`rt` reflected about the midpoint when `rt > 32-6`. -/
def rect_rel_top (frame_idx : Nat) : Nat :=
  if frame_idx / 9 % ((32 - 6) * 2) > 32 - 6 then
    (32 - 6) * 2 - frame_idx / 9 % ((32 - 6) * 2)
  else frame_idx / 9 % ((32 - 6) * 2)

/-- The drawing phase of `render`: the two corner strips, the logo and the
moving bar, drawn into the half starting at row `top_line i_ph`, with the
draw order of logo and bar swapped by `front`. -/
def renderDraw (frame_idx i_ph : Nat) (logo : Nat → Nat → Bool) (buf : Buf) : Buf :=
  if front frame_idx then
    render_logo
      (render_moving_bar
        (test_pattern_rect (test_pattern_rect buf 0 (top_line i_ph) 16 3 2 i_ph)
          0 (top_line i_ph + 3) 16 3 0 i_ph)
        (top_line i_ph + rect_rel_top frame_idx) i_ph)
      logo (top_line i_ph + 8)
  else
    render_moving_bar
      (render_logo
        (test_pattern_rect (test_pattern_rect buf 0 (top_line i_ph) 16 3 2 i_ph)
          0 (top_line i_ph + 3) 16 3 0 i_ph)
        logo (top_line i_ph + 8))
      (top_line i_ph + rect_rel_top frame_idx) i_ph

/-- The upload-and-clear loop of `render`: transmit `n` bytes starting at
byte `pos`, zeroing each byte immediately after it is read.  Returns the
transmitted bytes (in order) and the resulting buffer. -/
def uploadLoop : Nat → Nat → Buf → List Nat × Buf
  | 0, _, buf => ([], buf)
  | n + 1, pos, buf =>
    let px := byteAt buf pos
    let rest := uploadLoop n (pos + 1) (fun i k => if i = pos then false else buf i k)
    (px :: rest.1, rest.2)

/-- The base offset `i_ph ? 0 : half_buf_sz` of the uploaded half in `render`. -/
def upload_base (i_ph : Nat) : Nat := if i_ph ≠ 0 then 0 else half_buf_sz

/-- `render` of the sketch: draw the scene into the off-screen half, then
upload exactly `half_buf_sz` bytes of that half, zeroing them as they go.
Returns the transmitted data bytes and the final framebuffer. -/
def render (frame_idx i_ph : Nat) (logo : Nat → Nat → Bool) (buf : Buf) : List Nat × Buf :=
  uploadLoop half_buf_sz (upload_base i_ph) (renderDraw frame_idx i_ph logo buf)

/-- `ssd1306_select_gddram_half` of the sketch: the single command byte
`0x40 + (idx ? 32 : 0)` (GDDRAM display start line). -/
def ssd1306_select_gddram_half (idx : Nat) : List Nat :=
  [0x40 + (if idx ≠ 0 then 32 else 0)]

/-- `mode_center` command bytes: mux ratio 32, display offset 16. -/
def mode_center (_frameCount : Nat) : List Nat := [0xD6, 0x00, 0xA8, 31, 0xD3, 16]

/-- `mode_top` command bytes. -/
def mode_top (_frameCount : Nat) : List Nat := [0xD6, 0x00, 0xA8, 31, 0xD3, 0x60]

/-- `mode_bottom` command bytes. -/
def mode_bottom (_frameCount : Nat) : List Nat := [0xD6, 0x00, 0xA8, 31, 0xD3, 0x00]

/-- `mode_anim` command bytes: the display offset bounces with
`pos = (frameCount >> 1) & 0x3F`, reflected when `pos ≥ 0x20`. -/
def mode_anim (frameCount : Nat) : List Nat :=
  let pos0 := frameCount / 2 % 64
  let pos := if pos0 ≥ 0x20 then 0x3F - pos0 else pos0
  [0xD6, 0x00, 0xA8, 31, 0xD3, pos]

/-- `mode_zoom` command bytes: full-height mux 64, offset 0, zoom on. -/
def mode_zoom (_frameCount : Nat) : List Nat := [0xA8, 63, 0xD3, 0x00, 0xD6, 0x01]

/-- The `mode_sel_fns[5]` function-pointer table of the sketch. -/
def mode_sel_fns : List (Nat → List Nat) :=
  [mode_center, mode_top, mode_bottom, mode_anim, mode_zoom]

/-- Dispatch `mode_sel_fns[demo_mode]()`.  The sketch's invariant keeps
`demo_mode < 5`; out-of-range indices fall back to an empty sequence. -/
def modeCmds (demo_mode frameCount : Nat) : List Nat :=
  (mode_sel_fns.getD demo_mode (fun _ => [])) frameCount

/-- One bus transaction: a `sendcmds` command sequence or a data burst. -/
inductive TraceItem where
  | cmdSeq (bs : List Nat)
  | dataBytes (bs : List Nat)
deriving DecidableEq

/-- Is this trace item a single-byte GDDRAM start-line command
(the `0x40 | line` family)? -/
def isStartLineCmd : TraceItem → Bool
  | TraceItem.cmdSeq [b] => decide (0x40 ≤ b) && decide (b < 0x80)
  | _ => false

/-- Is this trace item a data burst? -/
def isDataItem : TraceItem → Bool
  | TraceItem.dataBytes _ => true
  | _ => false

/-- Number of start-line commands in a trace. -/
def startLineCount (tr : List TraceItem) : Nat := (tr.filter isStartLineCmd).length

/-- Number of data bursts in a trace. -/
def dataItemCount (tr : List TraceItem) : Nat := (tr.filter isDataItem).length

/-- The render-and-switch fragment of the tick body: `render(frame, i_ph)`
followed by `ssd1306_select_gddram_half(i_ph)`.  Returns the bus trace and
the resulting framebuffer. -/
def render_and_switch (frame_idx i_ph : Nat) (logo : Nat → Nat → Bool) (buf : Buf) :
    List TraceItem × Buf :=
  let r := render frame_idx i_ph logo buf
  ([TraceItem.dataBytes r.1, TraceItem.cmdSeq (ssd1306_select_gddram_half i_ph)], r.2)

/-- `next_frame - now` in AVR `unsigned long` (32-bit wrapping) arithmetic. -/
def usub32 (a b : Nat) : Nat := (a % U32 + (U32 - b % U32)) % U32

/-- The sketch's global state: scheduler deadline, frame period, Arduboy2
frame counter (`uint16_t`), the 3-phase counter, demo mode, button latch and
the local framebuffer. -/
structure LoopState where
  next_frame : Nat
  frame_period : Nat
  frameCount : Nat
  three_stages : Nat
  demo_mode : Nat
  button_held : Bool
  buf : Buf

/-- What one `loop()` invocation does before (possibly) running the tick body. -/
inductive LoopAction where
  | tick
  | sleep
  | spin
deriving DecidableEq

/-- The pacing decision at the top of `loop()`: with `rem = next_frame - now`
(32-bit wrapping), run the tick body when `rem ≥ frame_period`, otherwise
idle-sleep when `rem > 1500` and simply return (busy-spin) when not. -/
def loopDecision (st : LoopState) (now : Nat) : LoopAction :=
  if usub32 st.next_frame now < st.frame_period then
    (if usub32 st.next_frame now > 1500 then LoopAction.sleep else LoopAction.spin)
  else LoopAction.tick

/-- The B-button poll at the end of the tick body: on a fresh press,
increment `demo_mode` (`uint8_t`) and wrap to 0 at the table size 5;
`button_held` latches the press. -/
def buttonPoll (demo_mode : Nat) (button_held pressed : Bool) : Nat × Bool :=
  if pressed then
    if !button_held then
      (if (demo_mode + 1) % 256 ≥ 5 then 0 else (demo_mode + 1) % 256, true)
    else (demo_mode, true)
  else (demo_mode, false)

/-- The tick body of `loop()` (everything after the pacing check): set the
new deadline to `now + frame_period`, bump the frame counter, advance the
3-phase counter, render-and-switch unless in the hold phase, poll the
button and issue the current geometry mode's command sequence. -/
def tickBody (st : LoopState) (now : Nat) (pressed : Bool) (logo : Nat → Nat → Bool) :
    LoopState × List TraceItem :=
  let frameCount := (st.frameCount + 1) % 65536
  let ts1 := (st.three_stages + 1) % 256
  let ts := if ts1 > 2 then 0 else ts1
  let i_ph := if ts ≠ 0 then 1 else 0
  let rs := if ts ≠ 2 then render_and_switch frameCount i_ph logo st.buf else ([], st.buf)
  let pb := buttonPoll st.demo_mode st.button_held pressed
  ({ next_frame := (now % U32 + st.frame_period) % U32
     frame_period := st.frame_period
     frameCount := frameCount
     three_stages := ts
     demo_mode := pb.1
     button_held := pb.2
     buf := rs.2 },
   rs.1 ++ [TraceItem.cmdSeq (modeCmds pb.1 frameCount)])

/-- One full `loop()` invocation: run the tick body exactly when the pacing
check says so, otherwise leave the state alone (sleep or spin emit nothing). -/
def loopStep (st : LoopState) (now : Nat) (pressed : Bool) (logo : Nat → Nat → Bool) :
    LoopState × List TraceItem :=
  match loopDecision st now with
  | LoopAction.tick => tickBody st now pressed logo
  | _ => (st, [])

/-- The state after `setup()`: statics zero-initialised, frame period set to
the default, and the two boot-time `render(0, 0)` / `render(0, 1)` calls
applied to the (zeroed) framebuffer. -/
def initState (logo : Nat → Nat → Bool) : LoopState :=
  { next_frame := 0
    frame_period := DEFAULT_FRAME_PERIOD_MS
    frameCount := 0
    three_stages := 0
    demo_mode := 0
    button_held := false
    buf := (render 0 1 logo (render 0 0 logo (fun _ _ => false)).2).2 }

/-- States reachable by iterating `loop()` from the post-`setup()` state,
for arbitrary clock readings and button inputs. -/
inductive Reachable (logo : Nat → Nat → Bool) : LoopState → Prop where
  | start : Reachable logo (initState logo)
  | step : ∀ (s : LoopState) (now : Nat) (pressed : Bool),
      Reachable logo s → Reachable logo (loopStep s now pressed logo).1

/-! ### Helper lemmas about `byteAt` and the upload loop -/

lemma byteAt_congr (b1 b2 : Buf) (i : Nat) (h : ∀ k, k < 8 → b1 i k = b2 i k) :
    byteAt b1 i = byteAt b2 i := by
  unfold byteAt
  rw [h 0 (by norm_num), h 1 (by norm_num), h 2 (by norm_num), h 3 (by norm_num),
    h 4 (by norm_num), h 5 (by norm_num), h 6 (by norm_num), h 7 (by norm_num)]

lemma byteAt_eq_zero (b : Buf) (i : Nat) (h : ∀ k, k < 8 → b i k = false) :
    byteAt b i = 0 := by
  unfold byteAt
  rw [h 0 (by norm_num), h 1 (by norm_num), h 2 (by norm_num), h 3 (by norm_num),
    h 4 (by norm_num), h 5 (by norm_num), h 6 (by norm_num), h 7 (by norm_num)]
  simp [bitVal]

lemma map_ext_fun {α β : Type} (l : List α) (f g : α → β) (h : ∀ a, f a = g a) :
    l.map f = l.map g := by
  induction l with
  | nil => rfl
  | cons a t ih => simp [h a, ih]

lemma uploadLoop_fst : ∀ (n pos : Nat) (buf : Buf),
    (uploadLoop n pos buf).1 = (List.range n).map (fun o => byteAt buf (pos + o)) := by
  intro n
  induction n with
  | zero => intro pos buf; simp [uploadLoop]
  | succ n ih =>
    intro pos buf
    simp only [uploadLoop]
    rw [ih, List.range_succ_eq_map]
    simp only [List.map_cons, List.map_map, Nat.add_zero]
    congr 1
    refine map_ext_fun _ _ _ (fun o => ?_)
    simp only [Function.comp]
    have h1 : pos + 1 + o = pos + (o + 1) := by omega
    rw [h1]
    refine byteAt_congr _ _ _ (fun k _ => ?_)
    rw [if_neg (by omega)]

lemma uploadLoop_snd : ∀ (n pos : Nat) (buf : Buf) (i k : Nat),
    (uploadLoop n pos buf).2 i k =
      if pos ≤ i ∧ i < pos + n then false else buf i k := by
  intro n
  induction n with
  | zero =>
    intro pos buf i k
    simp only [uploadLoop]
    rw [if_neg (by omega)]
  | succ n ih =>
    intro pos buf i k
    simp only [uploadLoop]
    rw [ih]
    by_cases h1 : pos + 1 ≤ i ∧ i < pos + 1 + n
    · rw [if_pos h1, if_pos (by omega)]
    · rw [if_neg h1]
      by_cases h2 : i = pos
      · subst h2
        rw [if_pos rfl, if_pos (by omega)]
      · rw [if_neg h2, if_neg (by omega)]

/-! ### Helper lemmas about the drawing primitives -/

lemma fillRect_untouched (buf : Buf) (x y w h c idx k : Nat)
    (hy : 32 ≤ y) (hyh : y + h ≤ 64) (hidx : idx < 512 ∨ 1024 ≤ idx) :
    fillRect buf x y w h c idx k = buf idx k := by
  unfold fillRect
  rw [if_neg]
  intro hg
  simp only [Bool.and_eq_true, decide_eq_true_eq, inRectB] at hg
  have hq : 128 * (idx / 128) + idx % 128 = idx := Nat.div_add_mod idx 128
  have hr : idx % 128 < 128 := Nat.mod_lt _ (by norm_num)
  omega

lemma drawBitmap_untouched (buf : Buf) (x y : Nat) (bitmap : Nat → Nat → Bool)
    (w h idx k : Nat) (hy : 32 ≤ y) (hyh : y + h ≤ 64) (hidx : idx < 512 ∨ 1024 ≤ idx) :
    drawBitmap buf x y bitmap w h idx k = buf idx k := by
  unfold drawBitmap
  rw [if_neg]
  intro hg
  simp only [Bool.and_eq_true, decide_eq_true_eq, inRectB] at hg
  have hq : 128 * (idx / 128) + idx % 128 = idx := Nat.div_add_mod idx 128
  have hr : idx % 128 < 128 := Nat.mod_lt _ (by norm_num)
  omega

lemma test_pattern_rect_untouched (buf : Buf) (x y w h c_ofs i_ph idx k : Nat)
    (hy : 32 ≤ y) (hyh : y + h ≤ 64) (hidx : idx < 512 ∨ 1024 ≤ idx) :
    test_pattern_rect buf x y w h c_ofs i_ph idx k = buf idx k := by
  unfold test_pattern_rect
  rw [fillRect_untouched _ _ _ _ _ _ _ _ hy hyh hidx,
    fillRect_untouched _ _ _ _ _ _ _ _ hy hyh hidx,
    fillRect_untouched _ _ _ _ _ _ _ _ hy hyh hidx]

lemma render_moving_bar_untouched (buf : Buf) (y_ofs i_ph idx k : Nat)
    (hy : 32 ≤ y_ofs) (hyh : y_ofs + 6 ≤ 64) (hidx : idx < 512 ∨ 1024 ≤ idx) :
    render_moving_bar buf y_ofs i_ph idx k = buf idx k := by
  unfold render_moving_bar
  rw [test_pattern_rect_untouched _ _ _ _ _ _ _ _ _ (by omega) (by omega) hidx,
    test_pattern_rect_untouched _ _ _ _ _ _ _ _ _ (by omega) (by omega) hidx,
    test_pattern_rect_untouched _ _ _ _ _ _ _ _ _ (by omega) (by omega) hidx]

lemma render_logo_untouched (buf : Buf) (logo : Nat → Nat → Bool) (y_ofs idx k : Nat)
    (hy : 32 ≤ y_ofs) (hyh : y_ofs + 16 ≤ 64) (hidx : idx < 512 ∨ 1024 ≤ idx) :
    render_logo buf logo y_ofs idx k = buf idx k := by
  unfold render_logo
  exact drawBitmap_untouched _ _ _ _ _ _ _ _ hy (by omega) hidx

/-! ### Helper lemmas about the triangle-wave bar position -/

lemma rect_rel_top_le (n : Nat) : rect_rel_top n ≤ 26 := by
  unfold rect_rel_top
  have h : n / 9 % ((32 - 6) * 2) < (32 - 6) * 2 := Nat.mod_lt _ (by norm_num)
  split <;> omega

lemma rect_rel_top_period (p i : Nat) :
    rect_rel_top ((32 - 6) * 2 * 9 * p + i) = rect_rel_top i := by
  unfold rect_rel_top
  have h1 : ((32 - 6) * 2 * 9 * p + i) / 9 = 52 * p + i / 9 := by
    rw [show (32 - 6) * 2 * 9 * p = 9 * (52 * p) by ring, Nat.mul_add_div (by norm_num)]
  have h2 : (52 * p + i / 9) % ((32 - 6) * 2) = i / 9 % ((32 - 6) * 2) := by
    rw [show (32 - 6) * 2 = 52 by norm_num, Nat.add_comm, Nat.add_mul_mod_self_left]
  rw [h1, h2]

lemma rect_rel_top_rising (i : Nat) (h : i ≤ 242) : rect_rel_top i = i / 9 := by
  unfold rect_rel_top
  have h1 : i / 9 ≤ 26 := by omega
  have h2 : i / 9 % ((32 - 6) * 2) = i / 9 := Nat.mod_eq_of_lt (by omega)
  rw [h2, if_neg (by omega)]

lemma renderDraw_phase0_untouched (frame_idx : Nat) (logo : Nat → Nat → Bool)
    (buf : Buf) (idx k : Nat) (hidx : idx < 512 ∨ 1024 ≤ idx) :
    renderDraw frame_idx 0 logo buf idx k = buf idx k := by
  have htl : top_line 0 = 32 := rfl
  have hrrt : rect_rel_top frame_idx ≤ 26 := rect_rel_top_le frame_idx
  unfold renderDraw
  rw [htl]
  split
  · rw [render_logo_untouched _ _ _ _ _ (by omega) (by omega) hidx,
      render_moving_bar_untouched _ _ _ _ _ (by omega) (by omega) hidx,
      test_pattern_rect_untouched _ _ _ _ _ _ _ _ _ (by omega) (by omega) hidx,
      test_pattern_rect_untouched _ _ _ _ _ _ _ _ _ (by omega) (by omega) hidx]
  · rw [render_moving_bar_untouched _ _ _ _ _ (by omega) (by omega) hidx,
      render_logo_untouched _ _ _ _ _ (by omega) (by omega) hidx,
      test_pattern_rect_untouched _ _ _ _ _ _ _ _ _ (by omega) (by omega) hidx,
      test_pattern_rect_untouched _ _ _ _ _ _ _ _ _ (by omega) (by omega) hidx]

lemma getPixel_fillRect_inside (buf : Buf) (x y w h c px py : Nat)
    (hpx : px < 128) (h1 : x ≤ px) (h2 : px < x + w) (h3 : y ≤ py) (h4 : py < y + h) :
    getPixel (fillRect buf x y w h c) px py = decide (c ≠ 0) := by
  unfold getPixel fillRect
  have e1 : (py / 8 * 128 + px) % 128 = px := by omega
  have e2 : (py / 8 * 128 + px) / 128 = py / 8 := by omega
  rw [e1, e2]
  have e3 : py / 8 * 8 + py % 8 = py := by omega
  rw [e3, if_pos]
  simp only [Bool.and_eq_true, decide_eq_true_eq, inRectB]
  omega

lemma getPixel_fillRect_outside (buf : Buf) (x y w h c px py : Nat)
    (hpx : px < 128)
    (hout : px < x ∨ x + w ≤ px ∨ py < y ∨ y + h ≤ py) :
    getPixel (fillRect buf x y w h c) px py = getPixel buf px py := by
  unfold getPixel fillRect
  have e1 : (py / 8 * 128 + px) % 128 = px := by omega
  have e2 : (py / 8 * 128 + px) / 128 = py / 8 := by omega
  rw [e1, e2]
  have e3 : py / 8 * 8 + py % 8 = py := by omega
  rw [e3, if_neg]
  simp only [Bool.and_eq_true, decide_eq_true_eq, inRectB]
  omega

/-! ### Helper lemmas about the mode command sequences and the tick body -/

lemma modeCmds_not_startLine (d fc : Nat) :
    isStartLineCmd (TraceItem.cmdSeq (modeCmds d fc)) = false := by
  match d with
  | 0 => rfl
  | 1 => rfl
  | 2 => rfl
  | 3 => rfl
  | 4 => rfl
  | n + 5 =>
    have h : modeCmds (n + 5) fc = [] := by
      unfold modeCmds
      rw [List.getD_eq_default]
      simp [mode_sel_fns]
    rw [h]
    rfl

lemma isStartLineCmd_dataBytes (l : List Nat) :
    isStartLineCmd (TraceItem.dataBytes l) = false := rfl

lemma isDataItem_dataBytes (l : List Nat) : isDataItem (TraceItem.dataBytes l) = true := rfl

lemma isDataItem_cmdSeq (l : List Nat) : isDataItem (TraceItem.cmdSeq l) = false := rfl

lemma buttonPoll_lt (d : Nat) (held pressed : Bool) (h : d < 5) :
    (buttonPoll d held pressed).1 < 5 := by
  unfold buttonPoll
  split
  · split
    · split
      · simp
      · simp
        omega
    · simpa using h
  · simpa using h

lemma render_fst_eq (frame_idx i_ph : Nat) (logo : Nat → Nat → Bool) (buf : Buf) :
    (render frame_idx i_ph logo buf).1 =
      (List.range half_buf_sz).map
        (fun o => byteAt (renderDraw frame_idx i_ph logo buf) (upload_base i_ph + o)) := by
  unfold render
  rw [uploadLoop_fst]

/-! ### Claim theorems -/

/-- Claim C1: for every tick that performs an upload, the render/upload pass
transmits exactly `half_buf_sz = 128*64/8/2 = 512` bytes, taken from the
selected local framebuffer half (as left by the drawing phase), and on
return every byte of the uploaded half is zero. -/
theorem claim1_upload_full_half (frame_idx i_ph : Nat) (logo : Nat → Nat → Bool) (buf : Buf) :
    half_buf_sz = 512
    ∧ (render frame_idx i_ph logo buf).1.length = half_buf_sz
    ∧ (render frame_idx i_ph logo buf).1 =
        (List.range half_buf_sz).map
          (fun o => byteAt (renderDraw frame_idx i_ph logo buf) (upload_base i_ph + o))
    ∧ (∀ idx, upload_base i_ph ≤ idx → idx < upload_base i_ph + half_buf_sz →
        byteAt (render frame_idx i_ph logo buf).2 idx = 0) := by
  refine ⟨rfl, ?_, ?_, ?_⟩
  · unfold render
    rw [uploadLoop_fst]
    simp
  · unfold render
    rw [uploadLoop_fst]
  · intro idx hlo hhi
    unfold render
    refine byteAt_eq_zero _ _ (fun k _ => ?_)
    rw [uploadLoop_snd, if_pos ⟨hlo, hhi⟩]

/-- Witness for C1 at a concrete input. -/
theorem claim1_upload_full_half_witness :
    byteAt (render 0 0 (fun _ _ => false) (fun _ _ => false)).2 half_buf_sz = 0 :=
  (claim1_upload_full_half 0 0 (fun _ _ => false) (fun _ _ => false)).2.2.2
    half_buf_sz (by decide) (by decide)

/-- Claim C2: `ssd1306_select_gddram_half idx` emits exactly one command
byte, `0x40` for `idx = 0` and `0x40+32` for `idx = 1`, and the selected
GDDRAM half is the exact inverse of the half being rendered this phase:
the render pass targets rows starting at `top_line = 32*(1-idx)` and
uploads the local half at `upload_base = half_buf_sz*(1-idx)`. -/
theorem claim2_select_half_inverse (h : Nat) (hh : h < 2) :
    ssd1306_select_gddram_half h = [0x40 + 32 * h]
    ∧ (ssd1306_select_gddram_half h).length = 1
    ∧ upload_base h = half_buf_sz * (1 - h)
    ∧ top_line h = 32 * (1 - h) := by
  interval_cases h
  · exact ⟨by decide, by decide, by decide, by decide⟩
  · exact ⟨by decide, by decide, by decide, by decide⟩

/-- Witness for C2 at `halfIndex = 1`. -/
theorem claim2_select_half_inverse_witness :
    ssd1306_select_gddram_half 1 = [0x40 + 32 * 1]
    ∧ (ssd1306_select_gddram_half 1).length = 1
    ∧ upload_base 1 = half_buf_sz * (1 - 1)
    ∧ top_line 1 = 32 * (1 - 1) :=
  claim2_select_half_inverse 1 (by decide)

/-- Claim C6: the triangle-wave bar position is bounded by `32-6` and, in
every period of `(32-6)*2*9` ticks, is non-decreasing up to tick 242 of the
period and non-increasing from tick 242 to tick 467. -/
theorem claim6_triangle_wave :
    (∀ n, rect_rel_top n ≤ 32 - 6)
    ∧ (∀ p i j, i ≤ j → j ≤ 242 →
        rect_rel_top ((32 - 6) * 2 * 9 * p + i) ≤ rect_rel_top ((32 - 6) * 2 * 9 * p + j))
    ∧ (∀ p i j, 242 ≤ i → i ≤ j → j ≤ 467 →
        rect_rel_top ((32 - 6) * 2 * 9 * p + j) ≤ rect_rel_top ((32 - 6) * 2 * 9 * p + i)) := by
  refine ⟨fun n => by have := rect_rel_top_le n; omega, ?_, ?_⟩
  · intro p i j hij hj
    rw [rect_rel_top_period, rect_rel_top_period, rect_rel_top_rising i (by omega),
      rect_rel_top_rising j hj]
    exact Nat.div_le_div_right hij
  · intro p i j hi hij hj
    rw [rect_rel_top_period, rect_rel_top_period]
    have hi9 : 26 ≤ i / 9 := by omega
    have hj9 : j / 9 ≤ 51 := by omega
    have hij9 : i / 9 ≤ j / 9 := Nat.div_le_div_right hij
    unfold rect_rel_top
    have hmi : i / 9 % ((32 - 6) * 2) = i / 9 := Nat.mod_eq_of_lt (by omega)
    have hmj : j / 9 % ((32 - 6) * 2) = j / 9 := Nat.mod_eq_of_lt (by omega)
    rw [hmi, hmj]
    split <;> split <;> omega

/-- Witness for C6: one rising pair and one falling pair in period 0. -/
theorem claim6_triangle_wave_witness :
    rect_rel_top ((32 - 6) * 2 * 9 * 0 + 0) ≤ rect_rel_top ((32 - 6) * 2 * 9 * 0 + 9)
    ∧ rect_rel_top ((32 - 6) * 2 * 9 * 0 + 467) ≤ rect_rel_top ((32 - 6) * 2 * 9 * 0 + 242) :=
  ⟨claim6_triangle_wave.2.1 0 0 9 (by decide) (by decide),
    claim6_triangle_wave.2.2 0 242 467 (by decide) (by decide) (by decide)⟩

/-- Counterexample to claim C7 as stated: `mode_anim` is one of the
geometry-mode setup functions, and its emitted command bytes differ between
the call at frame count 0 and the call at frame count 2. -/
theorem claim7_counterexample : mode_anim 0 ≠ mode_anim 2 := by decide

/-- Claim C7 (amended): the static geometry modes (`mode_center`,
`mode_top`, `mode_bottom`, `mode_zoom`) emit the same fixed 6-byte command
sequence on every call; `mode_anim` always emits 6 bytes whose first five
are fixed, but its sixth byte (the display offset) depends on the frame
counter. -/
theorem claim7_static_modes_idempotent (fc fc' : Nat) :
    mode_center fc = mode_center fc'
    ∧ mode_top fc = mode_top fc'
    ∧ mode_bottom fc = mode_bottom fc'
    ∧ mode_zoom fc = mode_zoom fc'
    ∧ (mode_center fc).length = 6
    ∧ (mode_top fc).length = 6
    ∧ (mode_bottom fc).length = 6
    ∧ (mode_zoom fc).length = 6
    ∧ (mode_anim fc).take 5 = (mode_anim fc').take 5
    ∧ (mode_anim fc).length = 6 :=
  ⟨rfl, rfl, rfl, rfl, rfl, rfl, rfl, rfl, rfl, rfl⟩

/-- Claim C10: the upload-and-clear pass of `render` changes nothing outside
the uploaded half: every bit and every byte outside
`[upload_base i_ph, upload_base i_ph + half_buf_sz)` is exactly as the
drawing phase left it. -/
theorem claim10_other_half_preserved (frame_idx i_ph : Nat) (logo : Nat → Nat → Bool)
    (buf : Buf) (idx : Nat)
    (hout : idx < upload_base i_ph ∨ upload_base i_ph + half_buf_sz ≤ idx) :
    (∀ k, (render frame_idx i_ph logo buf).2 idx k = renderDraw frame_idx i_ph logo buf idx k)
    ∧ byteAt (render frame_idx i_ph logo buf).2 idx =
        byteAt (renderDraw frame_idx i_ph logo buf) idx := by
  have hbit : ∀ k, (render frame_idx i_ph logo buf).2 idx k =
      renderDraw frame_idx i_ph logo buf idx k := by
    intro k
    unfold render
    rw [uploadLoop_snd, if_neg (by omega)]
  exact ⟨hbit, byteAt_congr _ _ _ (fun k _ => hbit k)⟩

/-- Witness for C10: byte 0 is untouched when half 1 is uploaded. -/
theorem claim10_other_half_preserved_witness :
    byteAt (render 0 0 (fun _ _ => false) (fun _ _ => false)).2 0 =
      byteAt (renderDraw 0 0 (fun _ _ => false) (fun _ _ => false)) 0 :=
  (claim10_other_half_preserved 0 0 (fun _ _ => false) (fun _ _ => false) 0
    (Or.inl (by decide))).2

/-- Claim C8: in the colour table, the light-gray and dark-gray rows (1 and
2) have differing dither columns, one `WHITE` and one `BLACK`; consequently,
inside a flat region of the corner test strip assigned a gray logical
colour, a fixed pixel renders white in one dither phase and black in the
other — never constant across the dither cycle.  (Row `(2+2)%3 = 1` covers
columns 10..14 of the strip, row `(2+0)%3 = 2` covers columns 0..4.) -/
theorem claim8_gray_alternates :
    (colors 1 0 = WHITE ∧ colors 1 1 = BLACK ∧ colors 2 0 = BLACK ∧ colors 2 1 = WHITE
      ∧ WHITE ≠ BLACK)
    ∧ (∀ (buf buf' : Buf) (y0 px py : Nat),
        10 ≤ px → px < 15 → y0 ≤ py → py < y0 + 3 →
        getPixel (test_pattern_rect buf 0 y0 16 3 2 0) px py = true
        ∧ getPixel (test_pattern_rect buf' 0 y0 16 3 2 1) px py = false)
    ∧ (∀ (buf buf' : Buf) (y0 px py : Nat),
        px < 5 → y0 ≤ py → py < y0 + 3 →
        getPixel (test_pattern_rect buf 0 y0 16 3 2 0) px py = false
        ∧ getPixel (test_pattern_rect buf' 0 y0 16 3 2 1) px py = true) := by
  refine ⟨by decide, ?_, ?_⟩
  · intro buf buf' y0 px py h1 h2 h3 h4
    constructor
    · unfold test_pattern_rect
      rw [getPixel_fillRect_inside _ (0 + 2 * 16 / 3) y0 (16 / 3) 3 _ px py
        (by omega) (by omega) (by omega) h3 h4]
      decide
    · unfold test_pattern_rect
      rw [getPixel_fillRect_inside _ (0 + 2 * 16 / 3) y0 (16 / 3) 3 _ px py
        (by omega) (by omega) (by omega) h3 h4]
      decide
  · intro buf buf' y0 px py h1 h3 h4
    constructor
    · unfold test_pattern_rect
      rw [getPixel_fillRect_outside _ (0 + 2 * 16 / 3) y0 (16 / 3) 3 _ px py
        (by omega) (by omega),
        getPixel_fillRect_outside _ (0 + 1 * 16 / 3) y0 (16 / 3) 3 _ px py
        (by omega) (by omega),
        getPixel_fillRect_inside _ (0 + 0 * 16 / 3) y0 (16 / 3) 3 _ px py
        (by omega) (by omega) (by omega) h3 h4]
      decide
    · unfold test_pattern_rect
      rw [getPixel_fillRect_outside _ (0 + 2 * 16 / 3) y0 (16 / 3) 3 _ px py
        (by omega) (by omega),
        getPixel_fillRect_outside _ (0 + 1 * 16 / 3) y0 (16 / 3) 3 _ px py
        (by omega) (by omega),
        getPixel_fillRect_inside _ (0 + 0 * 16 / 3) y0 (16 / 3) 3 _ px py
        (by omega) (by omega) (by omega) h3 h4]
      decide

/-- Witness for C8: pixel (10, 32) of the strip at row 32 flips between the
two dither phases. -/
theorem claim8_gray_alternates_witness :
    getPixel (test_pattern_rect (fun _ _ => false) 0 32 16 3 2 0) 10 32 = true
    ∧ getPixel (test_pattern_rect (fun _ _ => false) 0 32 16 3 2 1) 10 32 = false :=
  claim8_gray_alternates.2.1 (fun _ _ => false) (fun _ _ => false) 32 10 32
    (by decide) (by decide) (by decide) (by decide)

/-- Claim C5: a tick body starting at frame 0, phase 0 draws only into local
half 1 (byte indices `half_buf_sz..2*half_buf_sz-1`), transmits exactly the
`half_buf_sz` bytes of that half as one data burst, zeroes that range, and
then sends the single command byte `0x40` selecting GDDRAM half 0 for
display; the transmitted bytes are exactly determined by the drawn buffer. -/
theorem claim5_first_tick (logo : Nat → Nat → Bool) (buf : Buf) :
    (∀ idx k, idx < half_buf_sz ∨ 2 * half_buf_sz ≤ idx →
        renderDraw 0 0 logo buf idx k = buf idx k)
    ∧ (render_and_switch 0 0 logo buf).1 =
        [TraceItem.dataBytes
            ((List.range half_buf_sz).map
              (fun o => byteAt (renderDraw 0 0 logo buf) (half_buf_sz + o))),
          TraceItem.cmdSeq [0x40]]
    ∧ ((List.range half_buf_sz).map
          (fun o => byteAt (renderDraw 0 0 logo buf) (half_buf_sz + o))).length = half_buf_sz
    ∧ (∀ idx, half_buf_sz ≤ idx → idx < 2 * half_buf_sz →
        byteAt (render_and_switch 0 0 logo buf).2 idx = 0) := by
  have h512 : half_buf_sz = 512 := rfl
  refine ⟨?_, ?_, ?_, ?_⟩
  · intro idx k hidx
    exact renderDraw_phase0_untouched 0 logo buf idx k (by omega)
  · have hfst : (render 0 0 logo buf).1 =
        (List.range half_buf_sz).map
          (fun o => byteAt (renderDraw 0 0 logo buf) (half_buf_sz + o)) :=
      render_fst_eq 0 0 logo buf
    have h1 : (render_and_switch 0 0 logo buf).1 =
        [TraceItem.dataBytes (render 0 0 logo buf).1,
          TraceItem.cmdSeq (ssd1306_select_gddram_half 0)] := by
      simp [render_and_switch]
    rw [h1, hfst]
    norm_num [ssd1306_select_gddram_half]
  · simp
  · intro idx hlo hhi
    have h2 : (render_and_switch 0 0 logo buf).2 = (render 0 0 logo buf).2 := by
      simp [render_and_switch]
    rw [h2]
    unfold render
    refine byteAt_eq_zero _ _ (fun k _ => ?_)
    rw [uploadLoop_snd, if_pos]
    constructor
    · show upload_base 0 ≤ idx
      rw [show upload_base 0 = half_buf_sz from rfl]
      exact hlo
    · show idx < upload_base 0 + half_buf_sz
      rw [show upload_base 0 = half_buf_sz from rfl]
      omega

/-- Witness for C5: at byte 0 bit 0, the drawing phase of the first tick
leaves half 0 untouched. -/
theorem claim5_first_tick_witness :
    renderDraw 0 0 (fun _ _ => false) (fun _ _ => false) 0 0 = false :=
  (claim5_first_tick (fun _ _ => false) (fun _ _ => false)).1 0 0 (Or.inl (by decide))

/-- Counterexample to claim C3 as stated: a tick fires with
`next_frame = 100`, `now = 200` (the deadline has just been passed), but the
new deadline is `now + frame_period = 7772`, not
`next_frame + frame_period = 7672` — the code reschedules from `now`, it
does not advance the old deadline by the period. -/
theorem claim3_counterexample :
    loopDecision
        { next_frame := 100, frame_period := 7572, frameCount := 0, three_stages := 0,
          demo_mode := 0, button_held := false, buf := fun _ _ => false } 200 =
      LoopAction.tick
    ∧ (tickBody
        { next_frame := 100, frame_period := 7572, frameCount := 0, three_stages := 0,
          demo_mode := 0, button_held := false, buf := fun _ _ => false }
        200 false (fun _ _ => false)).1.next_frame ≠ (100 + 7572) % U32 := by
  constructor
  · decide
  · decide

/-- Claim C3 (amended): when `remaining = next_frame - now` (32-bit
wrapping) is at least `frame_period`, the tick body runs, the frame counter
is incremented, and the next deadline is set to `now + frame_period`
(not advanced by `+= frame_period`); otherwise the loop sleeps when the
slack exceeds 1500 µs and busy-spins (returns immediately) when not. -/
theorem claim3_scheduler_pacing (st : LoopState) (now : Nat) (pressed : Bool)
    (logo : Nat → Nat → Bool) :
    (st.frame_period ≤ usub32 st.next_frame now →
      loopDecision st now = LoopAction.tick
      ∧ loopStep st now pressed logo = tickBody st now pressed logo
      ∧ (tickBody st now pressed logo).1.next_frame = (now % U32 + st.frame_period) % U32
      ∧ (tickBody st now pressed logo).1.frameCount = (st.frameCount + 1) % 65536)
    ∧ (usub32 st.next_frame now < st.frame_period →
        (1500 < usub32 st.next_frame now →
          loopDecision st now = LoopAction.sleep ∧ loopStep st now pressed logo = (st, []))
        ∧ (usub32 st.next_frame now ≤ 1500 →
          loopDecision st now = LoopAction.spin ∧ loopStep st now pressed logo = (st, []))) := by
  constructor
  · intro h
    have hdec : loopDecision st now = LoopAction.tick := by
      unfold loopDecision
      rw [if_neg (by omega)]
    refine ⟨hdec, ?_, rfl, rfl⟩
    unfold loopStep
    rw [hdec]
  · intro h
    constructor
    · intro h2
      have hdec : loopDecision st now = LoopAction.sleep := by
        unfold loopDecision
        rw [if_pos h, if_pos h2]
      refine ⟨hdec, ?_⟩
      unfold loopStep
      rw [hdec]
    · intro h2
      have hdec : loopDecision st now = LoopAction.spin := by
        unfold loopDecision
        rw [if_pos h, if_neg (by omega)]
      refine ⟨hdec, ?_⟩
      unfold loopStep
      rw [hdec]

/-- Witness for C3: a tick fires when the deadline has been passed, and the
loop sleeps when the deadline is comfortably ahead. -/
theorem claim3_scheduler_pacing_witness :
    loopDecision
        { next_frame := 100, frame_period := 7572, frameCount := 0, three_stages := 0,
          demo_mode := 0, button_held := false, buf := fun _ _ => false } 200 =
      LoopAction.tick
    ∧ loopDecision
        { next_frame := 5000, frame_period := 7572, frameCount := 0, three_stages := 0,
          demo_mode := 0, button_held := false, buf := fun _ _ => false } 0 =
      LoopAction.sleep :=
  ⟨((claim3_scheduler_pacing _ 200 false (fun _ _ => false)).1 (by decide)).1,
    (((claim3_scheduler_pacing _ 0 false (fun _ _ => false)).2 (by decide)).1 (by decide)).1⟩

/-- Counterexample to claim C4 as stated: on a hold tick of the 3-phase
cycle (entered with `three_stages = 1`), no start-line command is issued at
all — geometry switching does not happen on every tick. -/
theorem claim4_counterexample :
    startLineCount
        (tickBody
          { next_frame := 0, frame_period := 7572, frameCount := 0, three_stages := 1,
            demo_mode := 0, button_held := false, buf := fun _ _ => false }
          0 false (fun _ _ => false)).2 = 0
    ∧ startLineCount
        (tickBody
          { next_frame := 0, frame_period := 7572, frameCount := 0, three_stages := 1,
            demo_mode := 0, button_held := false, buf := fun _ _ => false }
          0 false (fun _ _ => false)).2 ≠ 1 := by
  constructor
  · decide
  · decide

/-- Claim C4 (amended): on the two ticks of each 3-phase cycle that render
and upload (3-phase counter entering state 1 or 0), exactly one start-line
command is issued, selecting half 1 and half 0 respectively; on the hold
tick (counter entering state 2, i.e. `three_stages = 1` before the tick) no
start-line command is issued and rendering/upload is skipped as well. -/
theorem claim4_start_line_per_tick (st : LoopState) (now : Nat) (pressed : Bool)
    (logo : Nat → Nat → Bool) (hts : st.three_stages < 3) :
    ((tickBody st now pressed logo).2.filter isStartLineCmd =
      if st.three_stages = 1 then []
      else [TraceItem.cmdSeq [0x40 + if st.three_stages = 2 then 0 else 32]])
    ∧ (st.three_stages ≠ 1 → startLineCount (tickBody st now pressed logo).2 = 1
        ∧ dataItemCount (tickBody st now pressed logo).2 = 1)
    ∧ (st.three_stages = 1 → startLineCount (tickBody st now pressed logo).2 = 0
        ∧ dataItemCount (tickBody st now pressed logo).2 = 0) := by
  obtain ⟨nf, fp, fc, ts, dm, bh, bf⟩ := st
  simp only at hts
  have hsel1 : isStartLineCmd (TraceItem.cmdSeq [0x40 + 32]) = true := by decide
  have hsel0 : isStartLineCmd (TraceItem.cmdSeq [0x40 + 0]) = true := by decide
  interval_cases ts
  · have h2 : (tickBody ⟨nf, fp, fc, 0, dm, bh, bf⟩ now pressed logo).2 =
        [TraceItem.dataBytes (render ((fc + 1) % 65536) 1 logo bf).1,
          TraceItem.cmdSeq [0x40 + 32],
          TraceItem.cmdSeq (modeCmds (buttonPoll dm bh pressed).1 ((fc + 1) % 65536))] := by
      simp [tickBody, render_and_switch, ssd1306_select_gddram_half]
    rw [h2]
    refine ⟨?_, fun _ => ⟨?_, ?_⟩, fun h => by simp at h⟩
    · simp [List.filter, modeCmds_not_startLine, isStartLineCmd_dataBytes, hsel1]
    · simp [startLineCount, List.filter, modeCmds_not_startLine, isStartLineCmd_dataBytes, hsel1]
    · simp [dataItemCount, List.filter, isDataItem_dataBytes, isDataItem_cmdSeq]
  · have h2 : (tickBody ⟨nf, fp, fc, 1, dm, bh, bf⟩ now pressed logo).2 =
        [TraceItem.cmdSeq (modeCmds (buttonPoll dm bh pressed).1 ((fc + 1) % 65536))] := by
      simp [tickBody]
    rw [h2]
    refine ⟨?_, fun h => by simp at h, fun _ => ⟨?_, ?_⟩⟩
    · simp [List.filter, modeCmds_not_startLine]
    · simp [startLineCount, List.filter, modeCmds_not_startLine]
    · simp [dataItemCount, List.filter, isDataItem_cmdSeq]
  · have h2 : (tickBody ⟨nf, fp, fc, 2, dm, bh, bf⟩ now pressed logo).2 =
        [TraceItem.dataBytes (render ((fc + 1) % 65536) 0 logo bf).1,
          TraceItem.cmdSeq [0x40 + 0],
          TraceItem.cmdSeq (modeCmds (buttonPoll dm bh pressed).1 ((fc + 1) % 65536))] := by
      simp [tickBody, render_and_switch, ssd1306_select_gddram_half]
    rw [h2]
    refine ⟨?_, fun _ => ⟨?_, ?_⟩, fun h => by simp at h⟩
    · simp [List.filter, modeCmds_not_startLine, isStartLineCmd_dataBytes, hsel0]
    · simp [startLineCount, List.filter, modeCmds_not_startLine, isStartLineCmd_dataBytes, hsel0]
    · simp [dataItemCount, List.filter, isDataItem_dataBytes, isDataItem_cmdSeq]

/-- Witness for C4: a rendering tick issues exactly one start-line command,
a hold tick issues none. -/
theorem claim4_start_line_per_tick_witness :
    startLineCount
        (tickBody
          { next_frame := 0, frame_period := 7572, frameCount := 0, three_stages := 0,
            demo_mode := 0, button_held := false, buf := fun _ _ => false }
          0 false (fun _ _ => false)).2 = 1
    ∧ startLineCount
        (tickBody
          { next_frame := 0, frame_period := 7572, frameCount := 0, three_stages := 1,
            demo_mode := 0, button_held := false, buf := fun _ _ => false }
          0 false (fun _ _ => false)).2 = 0 :=
  ⟨((claim4_start_line_per_tick _ 0 false (fun _ _ => false) (by decide)).2.1 (by decide)).1,
    ((claim4_start_line_per_tick _ 0 false (fun _ _ => false) (by decide)).2.2 (by decide)).1⟩

/-- Claim C9: the button poll keeps `demo_mode` below the 5-entry mode
table, and in every reachable state of the loop `demo_mode < 5 =
mode_sel_fns.length`, so the function-pointer dispatch always indexes
within the table. -/
theorem claim9_demo_mode_in_range :
    (∀ (d : Nat) (held pressed : Bool), d < 5 → (buttonPoll d held pressed).1 < 5)
    ∧ (∀ (logo : Nat → Nat → Bool) (s : LoopState), Reachable logo s →
        s.demo_mode < 5 ∧ s.demo_mode < mode_sel_fns.length) := by
  constructor
  · exact fun d held pressed h => buttonPoll_lt d held pressed h
  · intro logo s hs
    have h5 : s.demo_mode < 5 := by
      induction hs with
      | start => simp [initState]
      | step s' now pressed hs' ih =>
        unfold loopStep
        cases hdec : loopDecision s' now with
        | tick =>
          have he : (tickBody s' now pressed logo).1.demo_mode =
              (buttonPoll s'.demo_mode s'.button_held pressed).1 := rfl
          rw [he]
          exact buttonPoll_lt _ _ _ ih
        | sleep => simpa using ih
        | spin => simpa using ih
    exact ⟨h5, by simpa [mode_sel_fns] using h5⟩

/-- Witness for C9: the post-setup state and a concrete button poll. -/
theorem claim9_demo_mode_in_range_witness :
    (buttonPoll 4 false true).1 < 5
    ∧ (initState (fun _ _ => false)).demo_mode < 5 :=
  ⟨claim9_demo_mode_in_range.1 4 false true (by decide),
    (claim9_demo_mode_in_range.2 (fun _ _ => false) _ Reachable.start).1⟩
